import Mathlib

/-!
Verification development for the telegram summarize bot.

The repository's core consists of two components:

* `timeutil` — a `Parser` that turns free-form text ("", "last 3 hours",
  "2024-01-01 to 2024-01-02") into a `TimeRange` `[From, To)` in UTC,
  enforcing a configured maximum window; and
* `service` — a `Summarizer` that checks a channel whitelist, resolves the
  time range, fetches at most 500 messages from the store, renders them
  into a single user-role prompt turn and calls the LLM client.

The embedding below models instants as `Int` nanoseconds since the Unix
epoch (always UTC — Go's `.UTC()` changes only the displayed location, not
the instant).  Go `time.Duration` values are 64-bit signed integers of
nanoseconds whose arithmetic wraps around; the wrap is modelled explicitly
by `wrap64` because it is observable in `parseLast`.  Fallible Go functions
returning `(T, error)` are modelled with `Except`/`Option`.
-/

set_option maxRecDepth 8192

namespace SummaryBot

/-- Largest value of a Go `int64` / `time.Duration`. -/
def maxI64 : Int := 9223372036854775807

/-- Smallest value of a Go `int64` / `time.Duration`. -/
def minI64 : Int := -9223372036854775808

/-- Two's-complement wrap-around of Go 64-bit signed arithmetic.
(`%` on `Int` is `Int.emod`, non-negative for a positive modulus.) -/
def wrap64 (x : Int) : Int :=
  (x + 9223372036854775808) % 18446744073709551616 - 9223372036854775808

/-- Go unary negation on `int64`/`time.Duration` (wraps at `minI64`). -/
def neg64 (d : Int) : Int := wrap64 (-d)

/-- Go `time.Time.Sub`, which saturates at the `Duration` limits instead of
wrapping. -/
def durSub (t f : Int) : Int :=
  if t - f > maxI64 then maxI64
  else if t - f < minI64 then minI64
  else t - f

/-- `timeutil.Parser`: configured default and maximum windows, both Go
`time.Duration` values in nanoseconds. -/
structure Parser where
  defaultWindow : Int
  maxWindow : Int
deriving DecidableEq, Repr

/-- `timeutil.TimeRange`: a normalized `[From, To)` interval in UTC,
instants in nanoseconds since the Unix epoch. -/
structure TimeRange where
  From : Int
  To : Int
deriving DecidableEq, Repr

/-- The distinct error values produced by `timeutil.Parser`.  The Go code
returns `error` values created by `fmt.Errorf`; each constructor stands for
one of those distinct messages.  `windowTooLarge` carries the configured
maximum, which the Go message interpolates. -/
inductive ParseErr where
  | unrecognized
  | invalidQuantity
  | unsupportedUnit
  | windowTooLarge (max : Int)
  | invalidFrom
  | invalidTo
  | orderViolation
deriving DecidableEq, Repr

/-- Go `unicode.IsSpace`, used by `strings.TrimSpace`. -/
def isUniSpace (c : Char) : Bool :=
  let n := c.toNat
  decide ((9 ≤ n ∧ n ≤ 13) ∨ n = 32 ∨ n = 133 ∨ n = 160 ∨ n = 5760 ∨
    (8192 ≤ n ∧ n ≤ 8202) ∨ n = 8232 ∨ n = 8233 ∨ n = 8239 ∨ n = 8287 ∨
    n = 12288)

/-- The Go regexp class `\s`, which is `[\t\n\f\r ]`. -/
def isRegexSpace (c : Char) : Bool :=
  c == ' ' || c == '\t' || c == '\n' || c == Char.ofNat 12 || c == '\r'

/-- `strings.TrimSpace` on a character list. -/
def goTrimList (cs : List Char) : List Char :=
  ((cs.dropWhile isUniSpace).reverse.dropWhile isUniSpace).reverse

/-- `strings.TrimSpace`. -/
def goTrimString (s : String) : String := String.mk (goTrimList s.data)

/-- ASCII lowering, the case folding relevant to the `(?i)` patterns and to
`strings.ToLower` on the inputs reachable here. -/
def lowerAscii (c : Char) : Char :=
  if 'A' ≤ c ∧ c ≤ 'Z' then Char.ofNat (c.toNat + 32) else c

/-- Numeric value of a list of decimal digit characters. -/
def digitsVal (ds : List Char) : Nat :=
  ds.foldl (fun a c => a * 10 + (c.toNat - 48)) 0

/-- `fmt.Sscanf(qtyStr, "%d", &qty)` on a non-empty all-digit string: the
parse fails (with a range error) when the value does not fit in `int64`. -/
def scanQty (ds : List Char) : Option Int :=
  if digitsVal ds ≤ 9223372036854775807 then some (Int.ofNat (digitsVal ds)) else none

/-- The unit alternatives of `lastRe`:
`(?i)^last\s+(\d+)\s*(h|hr|hrs|hour|hours|d|day|days)$`. -/
def unitWords : List String := ["h", "hr", "hrs", "hour", "hours", "d", "day", "days"]

/-- Matcher for `lastRe = (?i)^last\s+(\d+)\s*(h|hr|hrs|hour|hours|d|day|days)$`
on the (already trimmed) input.  Returns the two capture groups: the digit
string and the unit text (original case, as Go's submatch does). -/
def matchLast (cs : List Char) : Option (List Char × List Char) :=
  match cs with
  | c1 :: c2 :: c3 :: c4 :: rest =>
    if lowerAscii c1 == 'l' && lowerAscii c2 == 'a' && lowerAscii c3 == 's' &&
        lowerAscii c4 == 't' then
      match rest with
      | [] => none
      | r :: _ =>
        if isRegexSpace r then
          let afterSp := rest.dropWhile isRegexSpace
          let ds := afterSp.takeWhile Char.isDigit
          if ds.isEmpty then none
          else
            let unit := (afterSp.dropWhile Char.isDigit).dropWhile isRegexSpace
            if unitWords.contains (String.mk (unit.map lowerAscii)) then
              some (ds, unit)
            else none
        else none
    else none
  | _ => none

/-- One `\d{4}-\d{2}-\d{2}` date of `rangeRe`; returns the ten matched
characters and the remainder. -/
def takeDate : List Char → Option (List Char × List Char)
  | a :: b :: c :: d :: s1 :: e :: f :: s2 :: g :: h :: rest =>
    if a.isDigit && b.isDigit && c.isDigit && d.isDigit && s1 == '-' &&
        e.isDigit && f.isDigit && s2 == '-' && g.isDigit && h.isDigit then
      some ([a, b, c, d, s1, e, f, s2, g, h], rest)
    else none
  | _ => none

/-- The optional `(?:[ T](\d{2}:\d{2}))?` group of `rangeRe`; returns the
captured time (empty when the group does not participate) and the
remainder. -/
def takeTimeOpt (l : List Char) : List Char × List Char :=
  match l with
  | s :: a :: b :: col :: c :: d :: rest =>
    if (s == ' ' || s == 'T') && a.isDigit && b.isDigit && col == ':' &&
        c.isDigit && d.isDigit then
      ([a, b, col, c, d], rest)
    else ([], l)
  | _ => ([], l)

/-- Matcher for
`rangeRe = ^\s*(\d{4}-\d{2}-\d{2})(?:[ T](\d{2}:\d{2}))?\s+to\s+(\d{4}-\d{2}-\d{2})(?:[ T](\d{2}:\d{2}))?\s*$`.
Returns the four capture groups (times empty when absent). -/
def matchRange (cs0 : List Char) : Option (List Char × List Char × List Char × List Char) :=
  let cs := cs0.dropWhile isRegexSpace
  match takeDate cs with
  | none => none
  | some (fd, r1) =>
    let ftr := takeTimeOpt r1
    match ftr.2 with
    | s :: _ =>
      if isRegexSpace s then
        match ftr.2.dropWhile isRegexSpace with
        | 't' :: 'o' :: r3 =>
          match r3 with
          | s2 :: _ =>
            if isRegexSpace s2 then
              match takeDate (r3.dropWhile isRegexSpace) with
              | none => none
              | some (td, r5) =>
                let ttr := takeTimeOpt r5
                if ttr.2.all isRegexSpace then some (fd, ftr.1, td, ttr.1)
                else none
            else none
          | [] => none
        | _ => none
      else none
    | [] => none

/-- Gregorian leap year, as `time.Date` computes it. -/
def isLeap (y : Int) : Bool :=
  y % 4 == 0 && (y % 100 != 0 || y % 400 == 0)

/-- Length of a month, as validated by Go `time.Parse`. -/
def daysInMonth (y : Int) (m : Nat) : Nat :=
  match m with
  | 1 => 31
  | 2 => if isLeap y then 29 else 28
  | 3 => 31
  | 4 => 30
  | 5 => 31
  | 6 => 30
  | 7 => 31
  | 8 => 31
  | 9 => 30
  | 10 => 31
  | 11 => 30
  | 12 => 31
  | _ => 0

/-- Days since 1970-01-01 of a civil date (proleptic Gregorian), the
arithmetic underlying Go's `time.Date`. -/
def daysFromCivil (y : Int) (m d : Nat) : Int :=
  let yAdj : Int := if m ≤ 2 then y - 1 else y
  let era : Int := yAdj / 400
  let yoe : Nat := (yAdj - era * 400).toNat
  let mp : Nat := if m > 2 then m - 3 else m + 9
  let doy : Nat := (153 * mp + 2) / 5 + d - 1
  let doe : Nat := yoe * 365 + yoe / 4 - yoe / 100 + doy
  era * 146097 + Int.ofNat doe - 719468

/-- Civil date of a day count since 1970-01-01 (inverse of
`daysFromCivil`), the arithmetic underlying Go's `Time.Date()`. -/
def civilFromDays (z0 : Int) : Int × Nat × Nat :=
  let z := z0 + 719468
  let era := z / 146097
  let doe : Nat := (z - era * 146097).toNat
  let yoe : Nat := (doe - doe / 1460 + doe / 36524 - doe / 146096) / 365
  let doy : Nat := doe - (365 * yoe + yoe / 4 - yoe / 100)
  let mp : Nat := (5 * doy + 2) / 153
  let da : Nat := doy - (153 * mp + 2) / 5 + 1
  let mo : Nat := if mp < 10 then mp + 3 else mp - 9
  let y : Int := Int.ofNat yoe + era * 400 + (if mo ≤ 2 then 1 else 0)
  (y, mo, da)

/-- `time.ParseInLocation("2006-01-02 15:04", date+" "+tim, UTC)`: validate
the shape and ranges and convert to epoch nanoseconds.  `none` models the
parse error. -/
def parseCivilNs (date tim : List Char) : Option Int :=
  match date, tim with
  | [y1, y2, y3, y4, h1, m1, m2, h2, d1, d2], [hh1, hh2, cl, mi1, mi2] =>
    if y1.isDigit && y2.isDigit && y3.isDigit && y4.isDigit && h1 == '-' &&
        m1.isDigit && m2.isDigit && h2 == '-' && d1.isDigit && d2.isDigit &&
        hh1.isDigit && hh2.isDigit && cl == ':' && mi1.isDigit && mi2.isDigit then
      if 1 ≤ digitsVal [m1, m2] ∧ digitsVal [m1, m2] ≤ 12 ∧
          1 ≤ digitsVal [d1, d2] ∧
          digitsVal [d1, d2] ≤
            daysInMonth (Int.ofNat (digitsVal [y1, y2, y3, y4])) (digitsVal [m1, m2]) ∧
          digitsVal [hh1, hh2] ≤ 23 ∧ digitsVal [mi1, mi2] ≤ 59 then
        some ((daysFromCivil (Int.ofNat (digitsVal [y1, y2, y3, y4]))
            (digitsVal [m1, m2]) (digitsVal [d1, d2]) * 86400 +
          Int.ofNat (digitsVal [hh1, hh2] * 3600 + digitsVal [mi1, mi2] * 60)) * 1000000000)
      else none
    else none
  | _, _ => none

/-- The duration computed by the `switch unit` of `parseLast`:
`time.Duration(qty) * time.Hour` resp. `time.Duration(qty) * 24 * time.Hour`,
with Go's wrapping 64-bit arithmetic. -/
def unitDurNs (qty : Int) (u : String) : Option Int :=
  if u = "h" ∨ u = "hr" ∨ u = "hrs" ∨ u = "hour" ∨ u = "hours" then
    some (wrap64 (qty * 3600000000000))
  else if u = "d" ∨ u = "day" ∨ u = "days" then
    some (wrap64 (wrap64 (qty * 24) * 3600000000000))
  else none

/-- `Parser.parseLast`: quantity scan, unit switch, max-window check,
window ending at `now`. -/
def parseLast (p : Parser) (now : Int) (ds unit : List Char) : Except ParseErr TimeRange :=
  match scanQty ds with
  | none => .error .invalidQuantity
  | some qty =>
    if qty ≤ 0 then .error .invalidQuantity
    else
      match unitDurNs qty (String.mk (unit.map lowerAscii)) with
      | none => .error .unsupportedUnit
      | some d =>
        if d > p.maxWindow then .error (.windowTooLarge p.maxWindow)
        else .ok ⟨now + neg64 d, now⟩

/-- `Parser.defaultRange`: the default window ending at `now`. -/
def defaultRange (p : Parser) (now : Int) : TimeRange :=
  ⟨now + neg64 p.defaultWindow, now⟩

/-- Substitute the layout defaults for a missing time-of-day capture
(`00:00` for the start, `23:59` for the end). -/
def timeOrDefault (t : List Char) (dflt : String) : List Char :=
  if t.isEmpty then dflt.data else t

/-- `Parser.parseExplicitRange` on the four captures of `rangeRe`. -/
def parseExplicitRange (p : Parser) (fd ft td tt : List Char) : Except ParseErr TimeRange :=
  match parseCivilNs fd (timeOrDefault ft "00:00") with
  | none => .error .invalidFrom
  | some f =>
    match parseCivilNs td (timeOrDefault tt "23:59") with
    | none => .error .invalidTo
    | some t =>
      if t ≤ f then .error .orderViolation
      else if durSub t f > p.maxWindow then .error (.windowTooLarge p.maxWindow)
      else .ok ⟨f, t⟩

/-- Branch dispatch of `Parser.Parse` on the trimmed input: default on
empty, then the two regex branches. -/
def parseTrimmed (p : Parser) (now : Int) (cs : List Char) : Except ParseErr TimeRange :=
  if cs.isEmpty then .ok (defaultRange p now)
  else
    match matchLast cs with
    | some (ds, unit) => parseLast p now ds unit
    | none =>
      match matchRange cs with
      | some (fd, ft, td, tt) => parseExplicitRange p fd ft td tt
      | none => .error .unrecognized

/-- `Parser.Parse`: `input = strings.TrimSpace(input)`, then dispatch. -/
def Parse (p : Parser) (now : Int) (input : String) : Except ParseErr TimeRange :=
  parseTrimmed p now (goTrimList input.data)

/-- Serialization of an instant to UTC epoch seconds (`Time.Unix()`, which
floors) and back (`time.Unix(sec, 0)`).  `/` on `Int` is `Int.ediv`, which
floors for the positive divisor. -/
def roundTripNs (ns : Int) : Int := ns / 1000000000 * 1000000000

/-- Left-pad a number with zeros, as Go's fixed-width layout digits do. -/
def padNat (w n : Nat) : String :=
  let s := toString n
  String.mk (List.replicate (w - s.length) '0') ++ s

/-- `Time.Format("2006-01-02 15:04")` of a UTC instant in epoch
nanoseconds. -/
def formatTs (ns : Int) : String :=
  let sec := ns / 1000000000
  let days := sec / 86400
  let sod := (sec - days * 86400).toNat
  let c := civilFromDays days
  let yStr := if c.1 < 0 then "-" ++ padNat 4 (-c.1).toNat else padNat 4 c.1.toNat
  yStr ++ "-" ++ padNat 2 c.2.1 ++ "-" ++ padNat 2 c.2.2 ++ " " ++
    padNat 2 (sod / 3600) ++ ":" ++ padNat 2 (sod % 3600 / 60)

/-- `sql.NullString`, as carried on a stored message's `Username`. -/
structure NullString where
  str : String
  valid : Bool
deriving DecidableEq, Repr

/-- `storage.Message`: a stored Telegram message (timestamp in UTC epoch
nanoseconds). -/
structure Message where
  channelID : Int
  messageID : Int
  senderID : Int
  username : NullString
  text : String
  timestamp : Int
deriving DecidableEq, Repr

/-- `service.Whitelist`: the allowed channel ids fixed at construction. -/
structure Whitelist where
  allowed : List Int
deriving DecidableEq, Repr

/-- `service.NewWhitelist`. -/
def NewWhitelist (ids : List Int) : Whitelist := ⟨ids⟩

/-- `Whitelist.IsAllowed`; the receiver is a Go pointer, so `none` models a
nil whitelist, for which the method returns `false`. -/
def IsAllowed (w : Option Whitelist) (channelID : Int) : Bool :=
  match w with
  | none => false
  | some w => w.allowed.contains channelID

/-- `llm.ChatMessage`: one prompt turn. -/
structure ChatMsg where
  role : String
  content : String
deriving DecidableEq, Repr

/-- The distinct failure classes of `Summarizer.SummarizeChannel`: access
denial, a parse error, a wrapped store failure (`fetch messages: %w`) and a
wrapped LLM failure (`llm summarize: %w`). -/
inductive SumErr where
  | accessDenied
  | parseErr (e : ParseErr)
  | storeErr (cause : String)
  | llmErr (cause : String)
deriving DecidableEq, Repr

/-- `service.SummaryRequest`: a summarization request coming from
Telegram. -/
structure SummaryRequest where
  channelID : Int
  rawRange : String
deriving DecidableEq, Repr

/-- Arguments of one `store.GetMessagesInRange` invocation. -/
structure StoreCall where
  channelID : Int
  fromT : Int
  toT : Int
  limit : Int
deriving DecidableEq, Repr

/-- Result of a `SummarizeChannel` run together with the store and LLM
invocations it performed, in order. -/
structure SummarizeResult where
  result : Except SumErr String
  storeCalls : List StoreCall
  llmCalls : List (List ChatMsg)

/-- The blank-input substitution of `SummarizeChannel`:
`if strings.TrimSpace(rawRange) == "" { rawRange = "last 24 hours" }`. -/
def effectiveRawRange (raw : String) : String :=
  if goTrimString raw = "" then "last 24 hours" else raw

/-- The display name of a message line: the username when valid and
non-empty, else `user-<senderId>`. -/
def displayName (u : NullString) (senderID : Int) : String :=
  if u.valid = true ∧ u.str ≠ "" then u.str else "user-" ++ toString senderID

/-- One rendered history line
`"[" + ts.UTC().Format("2006-01-02 15:04") + "] " + name + ": " + text + "\n"`. -/
def renderLine (m : Message) : String :=
  "[" ++ formatTs m.timestamp ++ "] " ++ displayName m.username m.senderID ++
    ": " ++ m.text ++ "\n"

/-- The newline-joined history block built by the `strings.Builder` loop. -/
def renderHistory (msgs : List Message) : String :=
  String.join (msgs.map renderLine)

/-- The fixed instruction prepended to the history (followed by a blank
line) to form the single user turn. -/
def promptHeader : String := "Summarize the following Telegram channel history:\n\n"

/-- The literal returned when the range holds no messages. -/
def noMessagesSentinel : String := "No messages found in the requested time range."

/-- `Summarizer.SummarizeChannel`.  `store` and `llm` are the injected
collaborators (`storage.Store.GetMessagesInRange` and
`llm.Client.Summarize`), modelled as oracles; the result records their
invocations so that call-count properties are statable. -/
def SummarizeChannel (wl : Option Whitelist) (p : Parser)
    (store : Int → Int → Int → Int → Except String (List Message))
    (llm : List ChatMsg → Except String String)
    (now : Int) (req : SummaryRequest) : SummarizeResult :=
  if wl.isNone || !(IsAllowed wl req.channelID) then ⟨.error .accessDenied, [], []⟩
  else
    match Parse p now (effectiveRawRange req.rawRange) with
    | .error e => ⟨.error (.parseErr e), [], []⟩
    | .ok tr =>
      let call : StoreCall := ⟨req.channelID, tr.From, tr.To, 500⟩
      match store req.channelID tr.From tr.To 500 with
      | .error cause => ⟨.error (.storeErr cause), [call], []⟩
      | .ok msgs =>
        if msgs.isEmpty then ⟨.ok noMessagesSentinel, [call], []⟩
        else
          let turns : List ChatMsg := [⟨"user", promptHeader ++ renderHistory msgs⟩]
          match llm turns with
          | .error cause => ⟨.error (.llmErr cause), [call], [turns]⟩
          | .ok summary => ⟨.ok (goTrimString summary), [call], [turns]⟩

/-!  Concrete fixtures used by witnesses and counterexamples.  `p7` is the
shipped configuration (24-hour default window, 7-day maximum);
`p48` is a 48-hour default window, which `config.Load` also accepts
(it only requires `max >= default`). -/

/-- Parser configured with a 24-hour default and a 7-day maximum. -/
def p7 : Parser := ⟨86400000000000, 604800000000000⟩

/-- Parser configured with a 48-hour default and a 7-day maximum. -/
def p48 : Parser := ⟨172800000000000, 604800000000000⟩

/-- Whitelist containing only channel 1. -/
def wl1 : Option Whitelist := some (NewWhitelist [1])

/-- A store oracle with no messages. -/
def storeEmptyOk : Int → Int → Int → Int → Except String (List Message) :=
  fun _ _ _ _ => .ok []

/-- A store oracle that always fails. -/
def storeBoom : Int → Int → Int → Int → Except String (List Message) :=
  fun _ _ _ _ => .error "boom"

/-- The two messages of the spec's scenario: "alice"/"hello" at
2024-01-10 11:00 UTC and the unnamed sender 43 / "world" at 11:30. -/
def msgsScenario : List Message :=
  [⟨1, 10, 42, ⟨"alice", true⟩, "hello", 1704884400000000000⟩,
   ⟨1, 11, 43, ⟨"", false⟩, "world", 1704886200000000000⟩]

/-- A store oracle returning the scenario messages. -/
def storeScenario : Int → Int → Int → Int → Except String (List Message) :=
  fun _ _ _ _ => .ok msgsScenario

/-- A single message whose text embeds a newline and a forged history
line, rendering identically to `msgsScenario` plus a changed first text. -/
def msgsForged : List Message :=
  [⟨1, 10, 42, ⟨"alice", true⟩,
    "hello\n[2024-01-10 11:30] user-43: world", 1704884400000000000⟩]

/-- An LLM oracle answering a fixed summary with surrounding whitespace. -/
def llmOk : List ChatMsg → Except String String := fun _ => .ok " summary "

/-! Helper lemmas shared by the claim theorems. -/

/-- `wrap64` is the identity on values representable in `int64`. -/
theorem wrap64_eq_self (x : Int) (h1 : -9223372036854775808 ≤ x)
    (h2 : x < 9223372036854775808) : wrap64 x = x := by
  unfold wrap64
  omega

/-- Instants at whole seconds survive the epoch-seconds round trip. -/
theorem roundTripNs_of_emod (x : Int) (h : x % 1000000000 = 0) :
    roundTripNs x = x := by
  unfold roundTripNs
  omega

/-- A successful whitelist test implies the pointer is non-nil. -/
theorem isAllowed_isNone_false {wl : Option Whitelist} {cid : Int}
    (h : IsAllowed wl cid = true) : wl.isNone = false := by
  cases wl with
  | none => simp [IsAllowed] at h
  | some w => rfl

/-- `SummarizeChannel` after a successful whitelist check, with the access
guard discharged and the call-site `let`s expanded. -/
theorem summarize_allowed_unfold (wl : Option Whitelist) (p : Parser)
    (store : Int → Int → Int → Int → Except String (List Message))
    (llm : List ChatMsg → Except String String) (now : Int)
    (req : SummaryRequest) (hA : IsAllowed wl req.channelID = true) :
    SummarizeChannel wl p store llm now req =
      match Parse p now (effectiveRawRange req.rawRange) with
      | .error e => ⟨.error (.parseErr e), [], []⟩
      | .ok tr =>
        match store req.channelID tr.From tr.To 500 with
        | .error cause =>
          ⟨.error (.storeErr cause), [⟨req.channelID, tr.From, tr.To, 500⟩], []⟩
        | .ok msgs =>
          if msgs.isEmpty then
            ⟨.ok noMessagesSentinel, [⟨req.channelID, tr.From, tr.To, 500⟩], []⟩
          else
            match llm [⟨"user", promptHeader ++ renderHistory msgs⟩] with
            | .error cause =>
              ⟨.error (.llmErr cause), [⟨req.channelID, tr.From, tr.To, 500⟩],
                [[⟨"user", promptHeader ++ renderHistory msgs⟩]]⟩
            | .ok summary =>
              ⟨.ok (goTrimString summary), [⟨req.channelID, tr.From, tr.To, 500⟩],
                [[⟨"user", promptHeader ++ renderHistory msgs⟩]]⟩ := by
  unfold SummarizeChannel
  rw [isAllowed_isNone_false hA, hA]
  rfl

/-- Whatever `parseLast` accepts ends at `now`. -/
theorem parseLast_ok_to {p : Parser} {now : Int} {ds unit : List Char}
    {tr : TimeRange} (h : parseLast p now ds unit = .ok tr) : tr.To = now := by
  unfold parseLast at h
  split at h
  · exact Except.noConfusion h
  · split at h
    · exact Except.noConfusion h
    · split at h
      · exact Except.noConfusion h
      · split at h
        · exact Except.noConfusion h
        · cases h
          rfl

/-- Timestamps produced by the civil parser are whole seconds (whole
minutes, in fact). -/
theorem parseCivilNs_emod {d t : List Char} {x : Int}
    (h : parseCivilNs d t = some x) : x % 1000000000 = 0 := by
  unfold parseCivilNs at h
  split at h
  · split at h
    · split at h
      · cases h
        omega
      · exact Option.noConfusion h
    · exact Option.noConfusion h
  · exact Option.noConfusion h

/-- Shape of a successful `parseExplicitRange`: both instants come from
the civil parser, in order. -/
theorem parseExplicitRange_ok {p : Parser} {fd ft td tt : List Char}
    {tr : TimeRange} (h : parseExplicitRange p fd ft td tt = .ok tr) :
    parseCivilNs fd (timeOrDefault ft "00:00") = some tr.From ∧
    parseCivilNs td (timeOrDefault tt "23:59") = some tr.To ∧
    tr.From < tr.To := by
  unfold parseExplicitRange at h
  split at h
  · exact Except.noConfusion h
  · rename_i f hf
    split at h
    · exact Except.noConfusion h
    · rename_i t ht
      split at h
      · exact Except.noConfusion h
      · split at h
        · exact Except.noConfusion h
        · cases h
          refine ⟨hf, ht, ?_⟩
          show f < t
          omega

/-! ## Claim theorems -/

/-- C1: The claimed invariant — every successfully parsed `TimeRange` has
`To > From` and a span of at most `maxWindow`, over-long spans failing with
the window error — is broken by the code: the duration multiplication in
`parseLast` wraps around the 64-bit `time.Duration`, so under the shipped
configuration (7-day maximum) the input `"last 106752 days"` parses
successfully into a range whose `From` lies about 292 years after `To`. -/
theorem parse_invariant_overflow_code_bug :
    Parse p7 0 "last 106752 days" = .ok ⟨9223371273709551616, 0⟩ ∧
    ¬ ((⟨9223371273709551616, 0⟩ : TimeRange).From <
        (⟨9223371273709551616, 0⟩ : TimeRange).To) :=
  ⟨rfl, by decide⟩

/-- C2: The claim that a relative span exceeding `maxWindow` always fails
with the window error is broken by the same 64-bit wrap-around: under the
shipped 7-day maximum, `"last 5124096 hours"` (about 584 years, far above
the maximum as the second conjunct records) wraps to roughly 25 minutes
and parses successfully instead of failing. -/
theorem parse_window_check_overflow_code_bug :
    Parse p7 0 "last 5124096 hours" = .ok ⟨-1526290448384, 0⟩ ∧
    p7.maxWindow < 5124096 * 3600000000000 :=
  ⟨rfl, by decide⟩

/-- C3: For any request whose channel the whitelist does not allow —
including the nil-whitelist case, for which `IsAllowed` is fail-closed —
`SummarizeChannel` returns the access-denial error having performed zero
store queries and zero LLM invocations. -/
theorem summarize_denied_short_circuits (wl : Option Whitelist) (p : Parser)
    (store : Int → Int → Int → Int → Except String (List Message))
    (llm : List ChatMsg → Except String String) (now : Int)
    (req : SummaryRequest) (h : IsAllowed wl req.channelID = false) :
    SummarizeChannel wl p store llm now req = ⟨.error .accessDenied, [], []⟩ := by
  unfold SummarizeChannel
  rw [h]
  simp

/-- Witness for C3: with a nil whitelist even channel 1 is denied, with
empty store and LLM call traces. -/
theorem summarize_denied_short_circuits_w :
    SummarizeChannel none p7 storeEmptyOk llmOk 0 ⟨1, ""⟩ =
      ⟨.error .accessDenied, [], []⟩ :=
  summarize_denied_short_circuits none p7 storeEmptyOk llmOk 0 ⟨1, ""⟩ rfl

/-- C4: On an allowed channel whose resolved range returns zero messages
from the store, `SummarizeChannel` succeeds with exactly the sentinel
string and performs zero LLM invocations. -/
theorem summarize_no_messages_sentinel (wl : Option Whitelist) (p : Parser)
    (store : Int → Int → Int → Int → Except String (List Message))
    (llm : List ChatMsg → Except String String) (now : Int)
    (req : SummaryRequest) (tr : TimeRange)
    (hA : IsAllowed wl req.channelID = true)
    (hP : Parse p now (effectiveRawRange req.rawRange) = .ok tr)
    (hS : store req.channelID tr.From tr.To 500 = .ok []) :
    SummarizeChannel wl p store llm now req =
      ⟨.ok noMessagesSentinel, [⟨req.channelID, tr.From, tr.To, 500⟩], []⟩ := by
  rw [summarize_allowed_unfold wl p store llm now req hA]
  simp [hP, hS]

/-- Witness for C4: the empty store yields the sentinel and no LLM call. -/
theorem summarize_no_messages_sentinel_w :
    SummarizeChannel wl1 p7 storeEmptyOk llmOk 1704888000000000000 ⟨1, ""⟩ =
      ⟨.ok noMessagesSentinel,
        [⟨1, 1704801600000000000, 1704888000000000000, 500⟩], []⟩ :=
  summarize_no_messages_sentinel wl1 p7 storeEmptyOk llmOk 1704888000000000000
    ⟨1, ""⟩ ⟨1704801600000000000, 1704888000000000000⟩ rfl rfl rfl

/-- C5: When at least one message is fetched, `SummarizeChannel` invokes
the LLM with exactly one user-role turn consisting of the fixed header, a
blank line, and one rendered line per fetched message in fetch order
(`renderLine`/`renderHistory`: `[YYYY-MM-DD HH:MM]` UTC timestamp, the
username when valid and non-empty else `user-<senderId>`, then the text);
on LLM success it returns the response trimmed of surrounding whitespace
and nothing else. -/
theorem summarize_prompt_shape_and_trim (wl : Option Whitelist) (p : Parser)
    (store : Int → Int → Int → Int → Except String (List Message))
    (llm : List ChatMsg → Except String String) (now : Int)
    (req : SummaryRequest) (tr : TimeRange) (msgs : List Message) (resp : String)
    (hA : IsAllowed wl req.channelID = true)
    (hP : Parse p now (effectiveRawRange req.rawRange) = .ok tr)
    (hS : store req.channelID tr.From tr.To 500 = .ok msgs)
    (hne : msgs ≠ [])
    (hL : llm [⟨"user", promptHeader ++ renderHistory msgs⟩] = .ok resp) :
    SummarizeChannel wl p store llm now req =
      ⟨.ok (goTrimString resp), [⟨req.channelID, tr.From, tr.To, 500⟩],
        [[⟨"user", promptHeader ++ renderHistory msgs⟩]]⟩ := by
  rw [summarize_allowed_unfold wl p store llm now req hA]
  have hne' : msgs.isEmpty = false := by
    cases msgs with
    | nil => exact absurd rfl hne
    | cons a l => rfl
  simp [hP, hS, hne', hL]

/-- Witness for C5: the spec's scenario — "alice"/"hello" at 11:00 UTC and
unnamed sender 43 / "world" at 11:30 — produces the documented single user
turn and the trimmed response. -/
theorem summarize_prompt_shape_and_trim_w :
    SummarizeChannel wl1 p7 storeScenario llmOk 1704888000000000000 ⟨1, ""⟩ =
      ⟨.ok (goTrimString " summary "),
        [⟨1, 1704801600000000000, 1704888000000000000, 500⟩],
        [[⟨"user", promptHeader ++ renderHistory msgsScenario⟩]]⟩ :=
  summarize_prompt_shape_and_trim wl1 p7 storeScenario llmOk 1704888000000000000
    ⟨1, ""⟩ ⟨1704801600000000000, 1704888000000000000⟩ msgsScenario " summary "
    rfl rfl rfl (by decide) rfl

/-- C6 counterexample: with a 48-hour configured default window (a
configuration `config.Load` accepts), a blank range expression resolves to
a 24-hour window — the engine substitutes the literal `"last 24 hours"` —
which differs from the parser's own default range. -/
theorem blank_range_counterexample :
    (SummarizeChannel wl1 p48 storeEmptyOk llmOk 0 ⟨1, ""⟩).storeCalls =
      [⟨1, -86400000000000, 0, 500⟩] ∧
    defaultRange p48 0 = ⟨-172800000000000, 0⟩ ∧
    (⟨1, -86400000000000, 0, 500⟩ : StoreCall) ≠
      ⟨1, (defaultRange p48 0).From, (defaultRange p48 0).To, 500⟩ :=
  ⟨rfl, rfl, by decide⟩

/-- C6 amended: when the configured default window is 24 hours and the
maximum window admits it — as in the shipped configuration — a blank
range makes `SummarizeChannel` query the store over exactly the parser's
own default range (the window of `defaultWindow` ending at `now`). -/
theorem blank_range_uses_parser_default_when_24h (wl : Option Whitelist)
    (p : Parser) (store : Int → Int → Int → Int → Except String (List Message))
    (llm : List ChatMsg → Except String String) (now : Int)
    (req : SummaryRequest)
    (hblank : goTrimString req.rawRange = "")
    (hA : IsAllowed wl req.channelID = true)
    (hdw : p.defaultWindow = 86400000000000)
    (hmw : 86400000000000 ≤ p.maxWindow) :
    (SummarizeChannel wl p store llm now req).storeCalls =
      [⟨req.channelID, (defaultRange p now).From, (defaultRange p now).To, 500⟩] := by
  have hP : Parse p now (effectiveRawRange req.rawRange) = .ok (defaultRange p now) := by
    unfold effectiveRawRange
    rw [hblank]
    simp only [if_pos]
    have h1 : Parse p now "last 24 hours" =
        (if (86400000000000 : Int) > p.maxWindow
          then .error (.windowTooLarge p.maxWindow)
          else .ok ⟨now + -86400000000000, now⟩) := rfl
    rw [h1, if_neg (by omega)]
    unfold defaultRange
    rw [hdw]
    rfl
  rw [summarize_allowed_unfold wl p store llm now req hA]
  simp only [hP]
  cases hs : store req.channelID (defaultRange p now).From (defaultRange p now).To 500 with
  | error c => simp [hs]
  | ok msgs =>
    cases msgs with
    | nil => simp [hs]
    | cons a l =>
      cases hl : llm [⟨"user", promptHeader ++ renderHistory (a :: l)⟩] <;>
        simp [hs, hl]

/-- Witness for the amended C6: under the shipped 24h/7d configuration a
whitespace-only range queries exactly the parser's default range. -/
theorem blank_range_uses_parser_default_when_24h_w :
    (SummarizeChannel wl1 p7 storeEmptyOk llmOk 0 ⟨1, " "⟩).storeCalls =
      [⟨1, (defaultRange p7 0).From, (defaultRange p7 0).To, 500⟩] :=
  blank_range_uses_parser_default_when_24h wl1 p7 storeEmptyOk llmOk 0 ⟨1, " "⟩
    rfl rfl rfl (by decide)

/-- C7: After access and range resolution succeed, `SummarizeChannel`
issues exactly one store query, for the requested channel over the
resolved `[From, To)` window with the fixed cap 500 as the limit; a store
failure is returned as the wrapping store error; and the messages used to
build the single prompt turn are exactly the store's reply, in its order. -/
theorem summarize_bounded_fetch (wl : Option Whitelist) (p : Parser)
    (store : Int → Int → Int → Int → Except String (List Message))
    (llm : List ChatMsg → Except String String) (now : Int)
    (req : SummaryRequest) (tr : TimeRange)
    (hA : IsAllowed wl req.channelID = true)
    (hP : Parse p now (effectiveRawRange req.rawRange) = .ok tr) :
    (SummarizeChannel wl p store llm now req).storeCalls =
      [⟨req.channelID, tr.From, tr.To, 500⟩] ∧
    (∀ cause, store req.channelID tr.From tr.To 500 = .error cause →
      (SummarizeChannel wl p store llm now req).result = .error (.storeErr cause)) ∧
    (∀ msgs, store req.channelID tr.From tr.To 500 = .ok msgs → msgs ≠ [] →
      (SummarizeChannel wl p store llm now req).llmCalls =
        [[⟨"user", promptHeader ++ renderHistory msgs⟩]]) := by
  refine ⟨?_, ?_, ?_⟩
  · rw [summarize_allowed_unfold wl p store llm now req hA]
    simp only [hP]
    cases hs : store req.channelID tr.From tr.To 500 with
    | error c => simp [hs]
    | ok msgs =>
      cases msgs with
      | nil => simp [hs]
      | cons a l =>
        cases hl : llm [⟨"user", promptHeader ++ renderHistory (a :: l)⟩] <;>
          simp [hs, hl]
  · intro cause hc
    rw [summarize_allowed_unfold wl p store llm now req hA]
    simp [hP, hc]
  · intro msgs hs hne
    rw [summarize_allowed_unfold wl p store llm now req hA]
    have hne' : msgs.isEmpty = false := by
      cases msgs with
      | nil => exact absurd rfl hne
      | cons a l => rfl
    simp only [hP, hs, hne']
    cases hl : llm [⟨"user", promptHeader ++ renderHistory msgs⟩] <;>
      simp [hl]

/-- Witness for C7: a failing store yields exactly one limit-500 query
over the resolved window and the wrapped store error. -/
theorem summarize_bounded_fetch_w :
    (SummarizeChannel wl1 p7 storeBoom llmOk 1704888000000000000 ⟨1, ""⟩).storeCalls =
      [⟨1, 1704801600000000000, 1704888000000000000, 500⟩] ∧
    (SummarizeChannel wl1 p7 storeBoom llmOk 1704888000000000000 ⟨1, ""⟩).result =
      .error (.storeErr "boom") := by
  have h := summarize_bounded_fetch wl1 p7 storeBoom llmOk 1704888000000000000
    ⟨1, ""⟩ ⟨1704801600000000000, 1704888000000000000⟩ rfl rfl
  exact ⟨h.1, h.2.1 "boom" rfl⟩

/-- C8 counterexample: the parser copies `now` — including its sub-second
part — into the range it returns, so a fractional `now` (here 0.5s after
the epoch, with blank input under the shipped configuration) yields a
range whose `To` is not fixed by the epoch-seconds round trip. -/
theorem roundtrip_counterexample :
    Parse p7 500000000 "" = .ok ⟨-86399500000000, 500000000⟩ ∧
    roundTripNs 500000000 ≠ (500000000 : Int) :=
  ⟨rfl, by decide⟩

/-- C8 amended: the epoch-seconds round trip is the identity on parser
outputs once sub-second inputs are excluded: on `To` for every successful
parse from a whole-second `now`; on the default range's `From` when the
configured default window is also a whole number of seconds (and a
representable `int64`); on `From` of every successful explicit range; and
on `From` of every successful relative parse whose duration computation
stays within `int64` — quantity times one hour for the hour units,
quantity times 24 hours for the day units — ruling out exactly the
wrap-around of C1/C2. -/
theorem roundtrip_amended :
    (∀ (p : Parser) (now : Int) (input : String) (tr : TimeRange),
      now % 1000000000 = 0 → Parse p now input = .ok tr →
      roundTripNs tr.To = tr.To) ∧
    (∀ (p : Parser) (now : Int),
      now % 1000000000 = 0 → p.defaultWindow % 1000000000 = 0 →
      -9223372036854775808 < p.defaultWindow →
      p.defaultWindow < 9223372036854775808 →
      roundTripNs (defaultRange p now).From = (defaultRange p now).From) ∧
    (∀ (p : Parser) (fd ft td tt : List Char) (tr : TimeRange),
      parseExplicitRange p fd ft td tt = .ok tr →
      roundTripNs tr.From = tr.From) ∧
    (∀ (p : Parser) (now : Int) (ds unit : List Char) (tr : TimeRange),
      now % 1000000000 = 0 →
      (String.mk (unit.map lowerAscii) = "h" ∨ String.mk (unit.map lowerAscii) = "hr" ∨
        String.mk (unit.map lowerAscii) = "hrs" ∨ String.mk (unit.map lowerAscii) = "hour" ∨
        String.mk (unit.map lowerAscii) = "hours" →
        Int.ofNat (digitsVal ds) * 3600000000000 < 9223372036854775808) →
      (String.mk (unit.map lowerAscii) = "d" ∨ String.mk (unit.map lowerAscii) = "day" ∨
        String.mk (unit.map lowerAscii) = "days" →
        Int.ofNat (digitsVal ds) * 86400000000000 < 9223372036854775808) →
      parseLast p now ds unit = .ok tr →
      roundTripNs tr.From = tr.From) := by
  refine ⟨?_, ?_, ?_, ?_⟩
  · intro p now input tr hnow h
    unfold Parse parseTrimmed at h
    split at h
    · cases h
      exact roundTripNs_of_emod now hnow
    · split at h
      · rw [parseLast_ok_to h]
        exact roundTripNs_of_emod now hnow
      · split at h
        · exact roundTripNs_of_emod _ (parseCivilNs_emod (parseExplicitRange_ok h).2.1)
        · exact Except.noConfusion h
  · intro p now hnow hdw h1 h2
    have hneg : neg64 p.defaultWindow = -p.defaultWindow := by
      unfold neg64
      exact wrap64_eq_self _ (by omega) (by omega)
    show roundTripNs (now + neg64 p.defaultWindow) = now + neg64 p.defaultWindow
    rw [hneg]
    exact roundTripNs_of_emod _ (by omega)
  · intro p fd ft td tt tr h
    exact roundTripNs_of_emod _ (parseCivilNs_emod (parseExplicitRange_ok h).1)
  · intro p now ds unit tr hnow hfitH hfitD h
    unfold parseLast at h
    split at h
    · exact Except.noConfusion h
    · rename_i qty hq
      have hqv : qty = Int.ofNat (digitsVal ds) := by
        unfold scanQty at hq
        split at hq
        · cases hq
          rfl
        · exact Option.noConfusion hq
      subst hqv
      split at h
      · exact Except.noConfusion h
      · split at h
        · exact Except.noConfusion h
        · rename_i d hu
          split at h
          · exact Except.noConfusion h
          · cases h
            unfold unitDurNs at hu
            split at hu
            · rename_i hc
              rw [Option.some.injEq] at hu
              subst hu
              have hfit := hfitH hc
              have ew : wrap64 (Int.ofNat (digitsVal ds) * 3600000000000) =
                  Int.ofNat (digitsVal ds) * 3600000000000 :=
                wrap64_eq_self _ (by omega) (by omega)
              have en : neg64 (Int.ofNat (digitsVal ds) * 3600000000000) =
                  -(Int.ofNat (digitsVal ds) * 3600000000000) := by
                unfold neg64
                exact wrap64_eq_self _ (by omega) (by omega)
              show roundTripNs (now + neg64 (wrap64 (Int.ofNat (digitsVal ds) * 3600000000000))) = _
              rw [ew, en]
              exact roundTripNs_of_emod _ (by omega)
            · split at hu
              · rename_i hc
                rw [Option.some.injEq] at hu
                subst hu
                have hfit := hfitD hc
                have e0 : wrap64 (Int.ofNat (digitsVal ds) * 24) =
                    Int.ofNat (digitsVal ds) * 24 :=
                  wrap64_eq_self _ (by omega) (by omega)
                have ew : wrap64 (Int.ofNat (digitsVal ds) * 24 * 3600000000000) =
                    Int.ofNat (digitsVal ds) * 24 * 3600000000000 :=
                  wrap64_eq_self _ (by omega) (by omega)
                have en : neg64 (Int.ofNat (digitsVal ds) * 24 * 3600000000000) =
                    -(Int.ofNat (digitsVal ds) * 24 * 3600000000000) := by
                  unfold neg64
                  exact wrap64_eq_self _ (by omega) (by omega)
                show roundTripNs (now + neg64 (wrap64 (wrap64 (Int.ofNat (digitsVal ds) * 24) * 3600000000000))) = _
                rw [e0, ew, en]
                exact roundTripNs_of_emod _ (by omega)
              · exact Option.noConfusion hu

/-- Witness for the amended C8: the shipped default range at `now = 0`
round-trips unchanged. -/
theorem roundtrip_amended_w :
    roundTripNs (defaultRange p7 0).From = (defaultRange p7 0).From :=
  roundtrip_amended.2.1 p7 0 (by decide) (by decide) (by decide) (by decide)

/-- C9: On the explicit-range branch a successful parse always satisfies
`From < To`, and whenever both endpoints parse but the end is not after
the start the branch fails with the order-violation error. -/
theorem explicit_order_check (p : Parser) (fd ft td tt : List Char) :
    (∀ tr, parseExplicitRange p fd ft td tt = .ok tr → tr.From < tr.To) ∧
    (∀ f t, parseCivilNs fd (timeOrDefault ft "00:00") = some f →
      parseCivilNs td (timeOrDefault tt "23:59") = some t → t ≤ f →
      parseExplicitRange p fd ft td tt = .error .orderViolation) := by
  constructor
  · intro tr h
    exact (parseExplicitRange_ok h).2.2
  · intro f t hf ht hle
    unfold parseExplicitRange
    simp only [hf, ht]
    rw [if_pos hle]

/-- Witness for C9: a reversed explicit range fails with the order error,
and a well-ordered one parses with `From < To`. -/
theorem explicit_order_check_w :
    parseExplicitRange p7 "2024-01-02".data [] "2024-01-01".data [] =
      .error .orderViolation ∧
    (⟨1704067200000000000, 1704239940000000000⟩ : TimeRange).From <
      (⟨1704067200000000000, 1704239940000000000⟩ : TimeRange).To :=
  ⟨(explicit_order_check p7 "2024-01-02".data [] "2024-01-01".data []).2
      1704153600000000000 1704153540000000000 rfl rfl (by decide),
    (explicit_order_check p7 "2024-01-01".data [] "2024-01-02".data []).1
      ⟨1704067200000000000, 1704239940000000000⟩ rfl⟩

/-- C10: The renderer embeds message text verbatim, so it is not
injective: a single message whose text smuggles a newline and a forged
history line renders identically to the two-message scenario list. -/
theorem render_not_injective :
    renderHistory msgsForged = renderHistory msgsScenario ∧
    msgsForged ≠ msgsScenario :=
  ⟨rfl, by decide⟩

end SummaryBot
